import Mathlib

/-!
Verification of the CallMLA Telugu voice-response webhook core flow.

A shallow embedding of `src/app.py`: the text-to-speech pipeline
(`generate_telugu_audio`), the voice-markup builder
(`create_twiml_response`) and the call-event handler (`voice_response`).

The external world is modelled explicitly:
- the synthesis provider's behaviour is a `ProviderOutcome` value
  (HTTP status plus body bytes, or one of the transport failures the
  code catches);
- the filesystem is the content of the single fixed artifact path,
  an `Option (List Nat)` (`none` = file absent), threaded through the
  functions; `mkdirOk` / `writeOk` model whether the directory-creation
  and file-write I/O operations succeed;
- HTTP responses are `HttpResponse` records (status, body, mimetype);
- the number of outbound provider calls is counted in `netCalls`.
-/

namespace CallMLA

/-- Bytes of an HTTP body or a stored file, each byte a `Nat`. -/
abbrev Bytes := List Nat

/-- Fixed artifact filename, `AUDIO_FILENAME` in app.py line 25. -/
def AUDIO_FILENAME : String := "mla-response.mp3"

/-- The ElevenLabs configuration globals of app.py lines 18-19
(`ELEVENLABS_API_KEY`, `ELEVENLABS_VOICE_ID`). -/
structure Config where
  apiKey : String
  voiceId : String
  deriving DecidableEq

/-- Python's `not s or not s.strip()`: true exactly when the string is
empty or consists only of whitespace characters (then `s.strip()` is
empty). Defined over the character list so it reduces in the kernel. -/
def isBlank (s : String) : Bool :=
  s.data.all (fun c => c.isWhitespace)

/-- Python's `s.rstrip('/')` (app.py line 383): drop trailing `'/'`
characters. Defined over the character list so it reduces in the
kernel. -/
def rstripSlash (s : String) : String :=
  ⟨(s.data.reverse.dropWhile (fun c => c = '/')).reverse⟩

/-- Placeholder sentinel for the API key (default in app.py line 18). -/
def API_KEY_PLACEHOLDER : String := "your_elevenlabs_api_key"

/-- Placeholder sentinel for the voice id (default in app.py line 19). -/
def VOICE_ID_PLACEHOLDER : String := "your_elevenlabs_voice_id"

/-- Outcome of the outbound `requests.post` call in app.py line 204:
an HTTP response with status and raw body bytes, or one of the
exception classes caught in lines 255-267. -/
inductive ProviderOutcome where
  | resp (status : Nat) (body : Bytes)
  | timeout
  | connectionError
  | requestError
  | otherError
  deriving DecidableEq

/-- The environment a single request runs in: what the provider would
answer, and whether the two filesystem operations (directory creation,
file write) succeed. -/
structure Env where
  provider : ProviderOutcome
  mkdirOk : Bool
  writeOk : Bool
  deriving DecidableEq

/-- Result of `generate_telugu_audio`: the returned `bool`, the content
of the fixed artifact path afterwards, and how many outbound provider
calls were made. -/
structure GenResult where
  success : Bool
  file : Option Bytes
  netCalls : Nat
  deriving DecidableEq

/-- Shallow embedding of `generate_telugu_audio` (app.py lines 156-267).
`fs` is the artifact-file content before the call (`none` = absent).
Mirrors the source control flow: blank-text check (line 169), API-key
placeholder check (line 174), voice-id placeholder check (line 178),
then the network call; on HTTP 200 it ensures the directory (line 214),
writes the body to the fixed path (lines 222-223), re-checks existence
and size (lines 227-235), failing when the size is zero; any non-200
status or transport exception returns `False` without touching the
file. -/
def generate_telugu_audio (text : String) (cfg : Config) (env : Env)
    (fs : Option Bytes) : GenResult :=
  if isBlank text then
    ⟨false, fs, 0⟩
  else if cfg.apiKey = "" ∨ cfg.apiKey = API_KEY_PLACEHOLDER then
    ⟨false, fs, 0⟩
  else if cfg.voiceId = "" ∨ cfg.voiceId = VOICE_ID_PLACEHOLDER then
    ⟨false, fs, 0⟩
  else
    match env.provider with
    | .resp status body =>
      if status = 200 then
        if env.mkdirOk then
          if env.writeOk then
            let fs2 : Option Bytes := some body
            match fs2 with
            | some content =>
              if content.length = 0 then ⟨false, fs2, 1⟩
              else ⟨true, fs2, 1⟩
            | none => ⟨false, fs2, 1⟩
          else ⟨false, fs, 1⟩
        else ⟨false, fs, 1⟩
      else ⟨false, fs, 1⟩
    | .timeout => ⟨false, fs, 1⟩
    | .connectionError => ⟨false, fs, 1⟩
    | .requestError => ⟨false, fs, 1⟩
    | .otherError => ⟨false, fs, 1⟩

/-- An HTTP response as built by the handlers: status code, body text
and mimetype (Flask `Response` objects in app.py). -/
structure HttpResponse where
  status : Nat
  body : String
  mimetype : String
  deriving DecidableEq

/-- The TwiML document template of app.py lines 286-289. -/
def twimlDoc (audio_url : String) : String :=
  "<?xml version=\"1.0\" encoding=\"UTF-8\"?>\n<Response>\n    <Play>"
    ++ audio_url ++ "</Play>\n</Response>"

/-- Shallow embedding of `create_twiml_response` (app.py lines 269-292):
an empty or whitespace-only URL yields a 400 plain-text failure, any
other URL yields the TwiML document with status 200 and mimetype
text/xml (Flask's default status). -/
def create_twiml_response (audio_url : String) : HttpResponse :=
  if isBlank audio_url then
    ⟨400, "Invalid audio URL", "text/plain"⟩
  else
    ⟨200, twimlDoc audio_url, "text/xml"⟩

/-- Default Telugu greeting used when the `message` form field is
absent (app.py line 372). -/
def DEFAULT_MESSAGE : String := "మీరు ఎవరు చెప్పండి, మీ సమస్య ఏమిటి?"

/-- `request.form.get('message', DEFAULT)` of app.py line 372:
the default is used only when the field is absent, not when it is
present but empty. -/
def selectMessage (message : Option String) : String :=
  message.getD DEFAULT_MESSAGE

/-- Result of the `/voice-response` handler: the HTTP response, the
artifact-file content afterwards, and the number of provider calls. -/
structure VoiceResult where
  response : HttpResponse
  file : Option Bytes
  netCalls : Nat
  deriving DecidableEq

/-- Shallow embedding of `voice_response` (app.py lines 333-413).
`message` is the optional `message` form field, `host_url` is
`request.host_url`. Picks the message text (line 372), runs
`generate_telugu_audio` (line 377); on success builds the audio URL
(line 383), re-checks that the artifact exists (line 387) and renders
the TwiML response, otherwise returns the plain-text 500 failure
(lines 398 and 403). -/
def voice_response (message : Option String) (host_url : String)
    (cfg : Config) (env : Env) (fs : Option Bytes) : VoiceResult :=
  let telugu_message := selectMessage message
  let g := generate_telugu_audio telugu_message cfg env fs
  if g.success then
    let audio_url :=
      rstripSlash host_url ++ "/audio/" ++ AUDIO_FILENAME
    match g.file with
    | some _ => ⟨ create_twiml_response audio_url, g.file, g.netCalls⟩
    | none => ⟨⟨500, "Audio file not found", "text/plain"⟩, g.file, g.netCalls⟩
  else
    ⟨⟨500, "Failed to generate audio", "text/plain"⟩, g.file, g.netCalls⟩

/-! ## Helper lemmas -/

/-- With valid text and configuration, I/O succeeding, and the provider
answering 200 with body `body`, `generate_telugu_audio` writes `body`
to the artifact and succeeds exactly when `body` is non-empty. -/
theorem generate_200_success_eq (text : String) (cfg : Config) (env : Env)
    (fs : Option Bytes) (body : Bytes)
    (htext : isBlank text = false)
    (hkey1 : cfg.apiKey ≠ "") (hkey2 : cfg.apiKey ≠ API_KEY_PLACEHOLDER)
    (hv1 : cfg.voiceId ≠ "") (hv2 : cfg.voiceId ≠ VOICE_ID_PLACEHOLDER)
    (hprov : env.provider = .resp 200 body)
    (hmk : env.mkdirOk = true) (hwr : env.writeOk = true)
    (hbody : body.length ≠ 0) :
    generate_telugu_audio text cfg env fs = ⟨true, some body, 1⟩ := by
  unfold generate_telugu_audio
  rw [hprov]
  simp [htext, hkey1, hkey2, hv1, hv2, hmk, hwr, hbody]

/-- With valid text and configuration, I/O succeeding, and the provider
answering 200 with an empty body, `generate_telugu_audio` writes the
empty body to the artifact and then fails the size check. -/
theorem generate_200_empty_eq (text : String) (cfg : Config) (env : Env)
    (fs : Option Bytes)
    (htext : isBlank text = false)
    (hkey1 : cfg.apiKey ≠ "") (hkey2 : cfg.apiKey ≠ API_KEY_PLACEHOLDER)
    (hv1 : cfg.voiceId ≠ "") (hv2 : cfg.voiceId ≠ VOICE_ID_PLACEHOLDER)
    (hprov : env.provider = .resp 200 [])
    (hmk : env.mkdirOk = true) (hwr : env.writeOk = true) :
    generate_telugu_audio text cfg env fs = ⟨false, some [], 1⟩ := by
  unfold generate_telugu_audio
  rw [hprov]
  simp [htext, hkey1, hkey2, hv1, hv2, hmk, hwr]

/-- `generate_telugu_audio` makes at most one outbound provider call. -/
theorem generate_netCalls_le_one (text : String) (cfg : Config) (env : Env)
    (fs : Option Bytes) :
    (generate_telugu_audio text cfg env fs).netCalls ≤ 1 := by
  unfold generate_telugu_audio
  split_ifs <;> try exact Nat.le_refl 1
  all_goals cases hp : env.provider <;> simp <;> split_ifs <;> simp

/-- Blankness distributes over string append. -/
theorem isBlank_append (s t : String) :
    isBlank (s ++ t) = (isBlank s && isBlank t) := by
  simp [isBlank, String.data_append, List.all_append]

/-- The audio URL built by `voice_response` is never blank, whatever
the host URL is: it ends in `/audio/mla-response.mp3`. -/
theorem isBlank_audio_url (host_url : String) :
    isBlank (rstripSlash host_url ++ "/audio/" ++ AUDIO_FILENAME) = false := by
  rw [isBlank_append, isBlank_append]
  have h : isBlank "/audio/" = false := by decide
  simp [h]

/-- On a non-blank URL `create_twiml_response` succeeds with the TwiML
document. -/
theorem create_twiml_response_ok (audio_url : String)
    (h : isBlank audio_url = false) :
    create_twiml_response audio_url = ⟨200, twimlDoc audio_url, "text/xml"⟩ := by
  simp [create_twiml_response, h]

/-- When audio generation returns `⟨true, some body, n⟩`,
`voice_response` renders the TwiML response for the fixed audio URL. -/
theorem voice_response_success_eq (message : Option String)
    (host_url : String) (cfg : Config) (env : Env) (fs : Option Bytes)
    (body : Bytes) (n : Nat)
    (hgen : generate_telugu_audio (selectMessage message) cfg env fs
      = ⟨true, some body, n⟩) :
    voice_response message host_url cfg env fs =
      ⟨⟨200, twimlDoc (rstripSlash host_url ++ "/audio/" ++ AUDIO_FILENAME),
        "text/xml"⟩, some body, n⟩ := by
  simp [voice_response, hgen,
    create_twiml_response_ok _ (isBlank_audio_url host_url)]

/-- When audio generation returns `⟨false, f, n⟩`, `voice_response`
returns the plain-text 500 failure. -/
theorem voice_response_failure_eq (message : Option String)
    (host_url : String) (cfg : Config) (env : Env) (fs : Option Bytes)
    (f : Option Bytes) (n : Nat)
    (hgen : generate_telugu_audio (selectMessage message) cfg env fs
      = ⟨false, f, n⟩) :
    voice_response message host_url cfg env fs =
      ⟨⟨500, "Failed to generate audio", "text/plain"⟩, f, n⟩ := by
  simp [voice_response, hgen]

/-! ## Claims -/

/-- Claim C1: for every non-empty input text and properly configured
API key and voice ID, if the provider responds HTTP 200 with a body of
N>0 bytes (and the filesystem operations succeed), then after
`generate_telugu_audio` returns, the artifact file at the fixed path
contains exactly those N bytes and the function returns success. -/
theorem claim1_success_stores_exact_bytes (text : String) (cfg : Config)
    (env : Env) (fs : Option Bytes) (body : Bytes)
    (htext : isBlank text = false)
    (hkey1 : cfg.apiKey ≠ "") (hkey2 : cfg.apiKey ≠ API_KEY_PLACEHOLDER)
    (hv1 : cfg.voiceId ≠ "") (hv2 : cfg.voiceId ≠ VOICE_ID_PLACEHOLDER)
    (hprov : env.provider = .resp 200 body)
    (hmk : env.mkdirOk = true) (hwr : env.writeOk = true)
    (hbody : 0 < body.length) :
    (generate_telugu_audio text cfg env fs).success = true ∧
    (generate_telugu_audio text cfg env fs).file = some body := by
  rw [generate_200_success_eq text cfg env fs body htext hkey1 hkey2 hv1 hv2
    hprov hmk hwr (by omega)]
  exact ⟨rfl, rfl⟩

/-- Witness for claim C1 at text `"abc"`, a two-byte provider body and
a pre-existing one-byte artifact. -/
theorem claim1_witness :
    (generate_telugu_audio "abc" ⟨"k", "v"⟩ ⟨.resp 200 [7, 8], true, true⟩
      (some [1])).success = true ∧
    (generate_telugu_audio "abc" ⟨"k", "v"⟩ ⟨.resp 200 [7, 8], true, true⟩
      (some [1])).file = some [7, 8] :=
  claim1_success_stores_exact_bytes "abc" ⟨"k", "v"⟩
    ⟨.resp 200 [7, 8], true, true⟩ (some [1]) [7, 8] (by decide) (by decide)
    (by decide) (by decide) (by decide) rfl rfl rfl (by decide)

/-- Claim C2: for every input text that is empty or whitespace-only,
`generate_telugu_audio` returns failure without issuing any network
call to the synthesis provider (and leaves the artifact untouched). -/
theorem claim2_blank_text_no_network (text : String) (cfg : Config)
    (env : Env) (fs : Option Bytes) (h : isBlank text = true) :
    (generate_telugu_audio text cfg env fs).success = false ∧
    (generate_telugu_audio text cfg env fs).netCalls = 0 ∧
    (generate_telugu_audio text cfg env fs).file = fs := by
  simp [generate_telugu_audio, h]

/-- Witness for claim C2 at the whitespace-only text `" "`. -/
theorem claim2_witness :
    isBlank " " = true ∧
    (generate_telugu_audio " " ⟨"k", "v"⟩ ⟨.resp 200 [1], true, true⟩
      none).success = false ∧
    (generate_telugu_audio " " ⟨"k", "v"⟩ ⟨.resp 200 [1], true, true⟩
      none).netCalls = 0 ∧
    (generate_telugu_audio " " ⟨"k", "v"⟩ ⟨.resp 200 [1], true, true⟩
      none).file = none :=
  ⟨by decide, claim2_blank_text_no_network " " ⟨"k", "v"⟩
    ⟨.resp 200 [1], true, true⟩ none (by decide)⟩

/-- Claim C3: for every provider response with an HTTP status other
than 200, the flow returns a failure and the artifact file at the
fixed path is not written: its content is unchanged. -/
theorem claim3_non200_failure_no_write (text : String) (cfg : Config)
    (env : Env) (fs : Option Bytes) (s : Nat) (body : Bytes)
    (hprov : env.provider = .resp s body) (hs : s ≠ 200) :
    (generate_telugu_audio text cfg env fs).success = false ∧
    (generate_telugu_audio text cfg env fs).file = fs := by
  unfold generate_telugu_audio
  rw [hprov]
  simp only [hs, if_false]
  split_ifs <;> exact ⟨rfl, rfl⟩

/-- Witness for claim C3 at a 401 provider response over a pre-existing
artifact. -/
theorem claim3_witness :
    (401 : Nat) ≠ 200 ∧
    (generate_telugu_audio "abc" ⟨"k", "v"⟩ ⟨.resp 401 [9], true, true⟩
      (some [3])).success = false ∧
    (generate_telugu_audio "abc" ⟨"k", "v"⟩ ⟨.resp 401 [9], true, true⟩
      (some [3])).file = some [3] :=
  ⟨by decide, claim3_non200_failure_no_write "abc" ⟨"k", "v"⟩
    ⟨.resp 401 [9], true, true⟩ (some [3]) 401 [9] rfl (by decide)⟩

/-- Claim C4: if the provider returns HTTP 200 with a zero-byte body,
the post-write size verification fails, `generate_telugu_audio`
returns failure, and the handler returns the plain-text failure
response, never a voice document. -/
theorem claim4_empty_body_no_voice_document (text : String)
    (host_url : String) (cfg : Config) (env : Env) (fs : Option Bytes)
    (htext : isBlank text = false)
    (hkey1 : cfg.apiKey ≠ "") (hkey2 : cfg.apiKey ≠ API_KEY_PLACEHOLDER)
    (hv1 : cfg.voiceId ≠ "") (hv2 : cfg.voiceId ≠ VOICE_ID_PLACEHOLDER)
    (hprov : env.provider = .resp 200 [])
    (hmk : env.mkdirOk = true) (hwr : env.writeOk = true) :
    (generate_telugu_audio text cfg env fs).success = false ∧
    (voice_response (some text) host_url cfg env fs).response =
      ⟨500, "Failed to generate audio", "text/plain"⟩ := by
  have h := generate_200_empty_eq text cfg env fs htext hkey1 hkey2 hv1 hv2
    hprov hmk hwr
  have h2 : generate_telugu_audio (selectMessage (some text)) cfg env fs
      = ⟨false, some [], 1⟩ := by
    simpa [selectMessage] using h
  exact ⟨by rw [h],
    by rw [voice_response_failure_eq (some text) host_url cfg env fs
      (some []) 1 h2]⟩

/-- Witness for claim C4 at text `"abc"` and an empty 200 body. -/
theorem claim4_witness :
    (generate_telugu_audio "abc" ⟨"k", "v"⟩ ⟨.resp 200 [], true, true⟩
      (some [3])).success = false ∧
    (voice_response (some "abc") "http://h" ⟨"k", "v"⟩
      ⟨.resp 200 [], true, true⟩ (some [3])).response =
      ⟨500, "Failed to generate audio", "text/plain"⟩ :=
  claim4_empty_body_no_voice_document "abc" "http://h" ⟨"k", "v"⟩
    ⟨.resp 200 [], true, true⟩ (some [3]) (by decide) (by decide) (by decide)
    (by decide) (by decide) rfl rfl rfl

/-- Claim C5: the response builder on an empty or whitespace-only URL
returns the invalid-URL failure (status 400); on the URL
`"http://h/audio/x.mp3"` it returns status 200 with an XML 1.0
document, UTF-8 declared, whose root `Response` element contains
exactly one `Play` element whose content is exactly that URL. -/
theorem claim5_twiml_builder :
    (create_twiml_response "").status = 400 ∧
    (create_twiml_response "").body = "Invalid audio URL" ∧
    (create_twiml_response " ").status = 400 ∧
    create_twiml_response "http://h/audio/x.mp3" =
      ⟨200,
        "<?xml version=\"1.0\" encoding=\"UTF-8\"?>\n<Response>\n    <Play>http://h/audio/x.mp3</Play>\n</Response>",
        "text/xml"⟩ := by decide

/-- Claim C6: a call event with no `message` field synthesises the
default Telugu greeting, and on provider success the handler returns
HTTP 200 with the XML document playing
`{host}/audio/mla-response.mp3`. -/
theorem claim6_default_greeting_flow (host_url : String) (cfg : Config)
    (env : Env) (fs : Option Bytes) (body : Bytes)
    (hkey1 : cfg.apiKey ≠ "") (hkey2 : cfg.apiKey ≠ API_KEY_PLACEHOLDER)
    (hv1 : cfg.voiceId ≠ "") (hv2 : cfg.voiceId ≠ VOICE_ID_PLACEHOLDER)
    (hprov : env.provider = .resp 200 body)
    (hmk : env.mkdirOk = true) (hwr : env.writeOk = true)
    (hbody : body.length ≠ 0) :
    selectMessage none = DEFAULT_MESSAGE ∧
    (voice_response none host_url cfg env fs).response =
      ⟨200, twimlDoc (rstripSlash host_url ++ "/audio/" ++ AUDIO_FILENAME),
        "text/xml"⟩ := by
  have h : generate_telugu_audio (selectMessage none) cfg env fs
      = ⟨true, some body, 1⟩ := by
    have hblank : isBlank (selectMessage none) = false := by decide
    exact generate_200_success_eq _ cfg env fs body hblank hkey1 hkey2 hv1 hv2
      hprov hmk hwr hbody
  exact ⟨rfl,
    by rw [voice_response_success_eq none host_url cfg env fs body 1 h]⟩

/-- Witness for claim C6 at host `"http://h"`, showing the exact XML
document with `<Play>http://h/audio/mla-response.mp3</Play>`. -/
theorem claim6_witness :
    (voice_response none "http://h" ⟨"k", "v"⟩ ⟨.resp 200 [9], true, true⟩
      none).response =
      ⟨200,
        "<?xml version=\"1.0\" encoding=\"UTF-8\"?>\n<Response>\n    <Play>http://h/audio/mla-response.mp3</Play>\n</Response>",
        "text/xml"⟩ :=
  ((claim6_default_greeting_flow "http://h" ⟨"k", "v"⟩
    ⟨.resp 200 [9], true, true⟩ none [9] (by decide) (by decide) (by decide)
    (by decide) rfl rfl rfl (by decide)).2).trans (by decide)

/-- Claim C7: a call event with a non-empty message but an API key or
voice ID still equal to its placeholder sentinel yields the plain-text
500 failure, no network call is made, and the artifact is untouched. -/
theorem claim7_placeholder_config (host_url : String) (cfg : Config)
    (env : Env) (fs : Option Bytes)
    (hkey : cfg.apiKey = API_KEY_PLACEHOLDER ∨
      cfg.voiceId = VOICE_ID_PLACEHOLDER) :
    (voice_response (some "test") host_url cfg env fs).response =
      ⟨500, "Failed to generate audio", "text/plain"⟩ ∧
    (voice_response (some "test") host_url cfg env fs).netCalls = 0 ∧
    (voice_response (some "test") host_url cfg env fs).file = fs := by
  have ht : isBlank "test" = false := by decide
  have hgen : generate_telugu_audio (selectMessage (some "test")) cfg env fs
      = ⟨false, fs, 0⟩ := by
    simp only [selectMessage, Option.getD_some]
    unfold generate_telugu_audio
    rcases hkey with h | h
    · simp [ht, h]
    · simp only [ht, Bool.false_eq_true, if_false]
      split_ifs with h1 h2 <;>
        first | rfl | exact absurd (Or.inr h) h2
  rw [voice_response_failure_eq (some "test") host_url cfg env fs fs 0 hgen]
  exact ⟨rfl, rfl, rfl⟩

/-- Witness for claim C7 with the API key left at its placeholder. -/
theorem claim7_witness :
    (voice_response (some "test") "http://h"
      ⟨"your_elevenlabs_api_key", "v"⟩ ⟨.resp 200 [1], true, true⟩
      (some [3])).response =
      ⟨500, "Failed to generate audio", "text/plain"⟩ ∧
    (voice_response (some "test") "http://h"
      ⟨"your_elevenlabs_api_key", "v"⟩ ⟨.resp 200 [1], true, true⟩
      (some [3])).netCalls = 0 ∧
    (voice_response (some "test") "http://h"
      ⟨"your_elevenlabs_api_key", "v"⟩ ⟨.resp 200 [1], true, true⟩
      (some [3])).file = some [3] :=
  claim7_placeholder_config "http://h" ⟨"your_elevenlabs_api_key", "v"⟩
    ⟨.resp 200 [1], true, true⟩ (some [3]) (Or.inl rfl)

/-- Claim C8 counterexample: a client-caused failure (an empty
`message` field, with valid configuration and a provider that would
succeed) yields status 500, not a 4xx status, refuting the claim that
client-caused failures receive 4xx. -/
theorem claim8_counterexample :
    (voice_response (some "") "http://h" ⟨"k", "v"⟩
      ⟨.resp 200 [1], true, true⟩ none).response.status = 500 ∧
    ¬(400 ≤ (voice_response (some "") "http://h" ⟨"k", "v"⟩
        ⟨.resp 200 [1], true, true⟩ none).response.status ∧
      (voice_response (some "") "http://h" ⟨"k", "v"⟩
        ⟨.resp 200 [1], true, true⟩ none).response.status < 500) := by decide

/-- Claim C8 (amended): every failure of the flow is terminal — at
most one provider call is ever made (no retry) — and the caller
receives the fixed generic plain-text 500 failure rather than a voice
document, for client-caused and provider/storage failures alike. -/
theorem claim8_failure_terminal_500 (message : Option String)
    (host_url : String) (cfg : Config) (env : Env) (fs : Option Bytes)
    (hfail : (generate_telugu_audio (selectMessage message) cfg env
      fs).success = false) :
    (voice_response message host_url cfg env fs).response =
      ⟨500, "Failed to generate audio", "text/plain"⟩ ∧
    (voice_response message host_url cfg env fs).netCalls ≤ 1 := by
  rcases hge : generate_telugu_audio (selectMessage message) cfg env fs
    with ⟨s, f, n⟩
  rw [hge] at hfail
  have hs : s = false := hfail
  subst hs
  rw [voice_response_failure_eq message host_url cfg env fs f n hge]
  refine ⟨rfl, ?_⟩
  have h2 := generate_netCalls_le_one (selectMessage message) cfg env fs
  rw [hge] at h2
  exact h2

/-- Witness for the amended claim C8, at a whitespace-only message. -/
theorem claim8_witness :
    (voice_response (some " ") "http://h" ⟨"k", "v"⟩
      ⟨.resp 200 [1], true, true⟩ none).response =
      ⟨500, "Failed to generate audio", "text/plain"⟩ ∧
    (voice_response (some " ") "http://h" ⟨"k", "v"⟩
      ⟨.resp 200 [1], true, true⟩ none).netCalls ≤ 1 :=
  claim8_failure_terminal_500 (some " ") "http://h" ⟨"k", "v"⟩
    ⟨.resp 200 [1], true, true⟩ none (by decide)

/-- Claim C9: when the provider returns HTTP 200 with a zero-byte
body, the handler still writes that empty body to the fixed artifact
path before reporting failure: the artifact afterwards holds the empty
content, so any different previous content is destroyed on this error
path. -/
theorem claim9_empty_body_overwrites_artifact (text : String)
    (cfg : Config) (env : Env) (fs : Option Bytes)
    (htext : isBlank text = false)
    (hkey1 : cfg.apiKey ≠ "") (hkey2 : cfg.apiKey ≠ API_KEY_PLACEHOLDER)
    (hv1 : cfg.voiceId ≠ "") (hv2 : cfg.voiceId ≠ VOICE_ID_PLACEHOLDER)
    (hprov : env.provider = .resp 200 [])
    (hmk : env.mkdirOk = true) (hwr : env.writeOk = true) :
    (generate_telugu_audio text cfg env fs).success = false ∧
    (generate_telugu_audio text cfg env fs).file = some [] ∧
    (fs ≠ some ([] : Bytes) →
      (generate_telugu_audio text cfg env fs).file ≠ fs) := by
  rw [generate_200_empty_eq text cfg env fs htext hkey1 hkey2 hv1 hv2 hprov
    hmk hwr]
  exact ⟨rfl, rfl, fun hne heq => hne heq.symm⟩

/-- Witness for claim C9: a non-empty previous artifact `[5, 6]` is
replaced by the empty body on the error path. -/
theorem claim9_witness :
    (generate_telugu_audio "abc" ⟨"k", "v"⟩ ⟨.resp 200 [], true, true⟩
      (some [5, 6])).success = false ∧
    (generate_telugu_audio "abc" ⟨"k", "v"⟩ ⟨.resp 200 [], true, true⟩
      (some [5, 6])).file = some [] ∧
    (some [5, 6] ≠ some ([] : Bytes) →
      (generate_telugu_audio "abc" ⟨"k", "v"⟩ ⟨.resp 200 [], true, true⟩
        (some [5, 6])).file ≠ some [5, 6]) :=
  claim9_empty_body_overwrites_artifact "abc" ⟨"k", "v"⟩
    ⟨.resp 200 [], true, true⟩ (some [5, 6]) (by decide) (by decide)
    (by decide) (by decide) (by decide) rfl rfl rfl

/-- Claim C10: a `message` form field that is present but empty or
whitespace-only is not replaced by the default greeting: the blank
string itself is passed to synthesis, which rejects it without a
network call, and the handler returns the plain-text 500 failure. -/
theorem claim10_present_empty_message (msg : String) (host_url : String)
    (cfg : Config) (env : Env) (fs : Option Bytes)
    (h : isBlank msg = true) :
    selectMessage (some msg) = msg ∧
    msg ≠ DEFAULT_MESSAGE ∧
    (generate_telugu_audio msg cfg env fs).success = false ∧
    (generate_telugu_audio msg cfg env fs).netCalls = 0 ∧
    (voice_response (some msg) host_url cfg env fs).response =
      ⟨500, "Failed to generate audio", "text/plain"⟩ := by
  have hd : isBlank DEFAULT_MESSAGE = false := by decide
  have hgen : generate_telugu_audio msg cfg env fs = ⟨false, fs, 0⟩ := by
    unfold generate_telugu_audio
    simp [h]
  have hgen2 : generate_telugu_audio (selectMessage (some msg)) cfg env fs
      = ⟨false, fs, 0⟩ := by
    simpa [selectMessage] using hgen
  refine ⟨rfl, ?_, by rw [hgen], by rw [hgen],
    by rw [voice_response_failure_eq (some msg) host_url cfg env fs fs 0
      hgen2]⟩
  intro he
  rw [he] at h
  rw [h] at hd
  exact Bool.noConfusion hd

/-- Witness for claim C10 at the empty message string. -/
theorem claim10_witness :
    selectMessage (some "") = "" ∧
    "" ≠ DEFAULT_MESSAGE ∧
    (generate_telugu_audio "" ⟨"k", "v"⟩ ⟨.resp 200 [1], true, true⟩
      none).success = false ∧
    (generate_telugu_audio "" ⟨"k", "v"⟩ ⟨.resp 200 [1], true, true⟩
      none).netCalls = 0 ∧
    (voice_response (some "") "http://h" ⟨"k", "v"⟩
      ⟨.resp 200 [1], true, true⟩ none).response =
      ⟨500, "Failed to generate audio", "text/plain"⟩ :=
  claim10_present_empty_message "" "http://h" ⟨"k", "v"⟩
    ⟨.resp 200 [1], true, true⟩ none (by decide)

end CallMLA
